import Mathlib

/-!
# InterOp: index-summary application, example 4 and the collapsed q-score codec

Shallow embedding of

* `src/apps/index_summary.cpp`  (namespace `IndexSummary`),
* `src/examples/example4.cpp`   (namespace `Example4`),
* the binary codec exercised by `src/tests/interop/metrics/q_collapsed_metrics_test.cpp`
  (namespace `Codec`).

Streams (`std::cout`, `std::cerr`) are modelled by the text written to them, C++ exceptions
by explicit result values, and library calls whose code is not part of the embedded files
by parameters collected in an environment structure.
-/

namespace IndexSummary

/-! ## `index_summary.cpp`: exit codes and `main` -/

/-- Exit codes that can be produced by the application (`enum exit_codes`). -/
inductive exit_codes
  | SUCCESS
  | INVALID_ARGUMENTS
  | NO_INTEROPS_FOUND
  | BAD_FORMAT
  | UNEXPECTED_EXCEPTION
  | EMPTY_INTEROP
  | MISSING_RUNINFO_XML
  | IMPROPER_RUNINFO_XML
  | MALFORMED_XML
  deriving DecidableEq, Repr

/-- Integer value of an enumerator: an unscoped C++ enum without initialisers numbers its
enumerators 0, 1, 2, ... in declaration order. -/
def exit_codes.value : exit_codes → Int
  | .SUCCESS => 0
  | .INVALID_ARGUMENTS => 1
  | .NO_INTEROPS_FOUND => 2
  | .BAD_FORMAT => 3
  | .UNEXPECTED_EXCEPTION => 4
  | .EMPTY_INTEROP => 5
  | .MISSING_RUNINFO_XML => 6
  | .IMPROPER_RUNINFO_XML => 7
  | .MALFORMED_XML => 8

/-- Dynamic type of a thrown exception, as far as the catch clauses of `main` tell them apart.
Every exception the library throws derives from `std::exception`; `other_std_exception` stands
for any such class that is none of the four named ones. -/
inductive exception_class
  | index_out_of_bounds_exception
  | xml_file_not_found_exception
  | xml_parse_exception
  | bad_format_exception
  | other_std_exception
  deriving DecidableEq, Repr

/-- A thrown exception object: its class and the text returned by `what()`. -/
structure thrown where
  cls : exception_class
  what : String
  deriving DecidableEq, Repr

/-- The exception a failing call of `print_summary` throws, with the text returned by `what()`:
the throw sites of `print_summary` (lines 262 to 293 of `index_summary.cpp`) are the
bounds-checked `operator[]` calls on the flowcell and lane summaries, which throw
`model::index_out_of_bounds_exception`. -/
structure index_out_of_bounds_exception where
  what : String
  deriving DecidableEq, Repr

/-- The collaborators `main` calls: `INTEROP_VERSION`, `run_metrics::read`, `run_metrics::empty`,
`summarize_index_metrics`, `index_flowcell_summary::sort` and `print_summary`.  A call made
inside a `try` block either completes or throws.  `run_metrics::read` and
`summarize_index_metrics` are library code and may throw any class derived from
`std::exception`; `print_summary` reports the text it had written to `std::cout` and, when it
failed, the index-out-of-bounds exception of the `operator[]` call that failed.  The function
`print_summary` itself is embedded further down, for the case that no `operator[]` throws. -/
structure Env (Run Summary : Type) where
  INTEROP_VERSION : String
  read : String → Except thrown Run
  empty : Run → Bool
  summarize_index_metrics : Run → Except thrown Summary
  sort : Summary → Summary
  print_summary : Summary → String × Option index_out_of_bounds_exception

/-- How `main` ends: by a `return` statement, or by an exception that no handler of `main`
catches and that therefore leaves `main`.  With the exceptions the collaborators throw, every
path of `main` ends by a `return` statement. -/
inductive termination
  | returned (code : exit_codes)
  | uncaught (e : thrown)
  deriving DecidableEq, Repr

/-- Effect of one pass through the body of the `for` loop of `main`: the text written to
`std::cout` and `std::cerr`, and `some t` when the pass ends `main` (by `return` or by an
escaping exception), `none` when the loop goes on to the next argument. -/
structure iteration where
  cout : String
  cerr : String
  exit : Option termination
  deriving DecidableEq, Repr

/-- Observable behaviour of `main`: text written to `std::cout` and `std::cerr`, the run folders
passed to `run.read`, in call order, and how `main` ended. -/
structure result where
  cout : String
  cerr : String
  folders_read : List String
  status : termination
  deriving DecidableEq, Repr

/-- The handlers of the first `try` block (around `run.read(argv[i])`), tried in source order. -/
def catch_read (e : thrown) : exit_codes :=
  if e.cls = .index_out_of_bounds_exception then .UNEXPECTED_EXCEPTION
  else if e.cls = .xml_file_not_found_exception then .MISSING_RUNINFO_XML
  else if e.cls = .xml_parse_exception then .MALFORMED_XML
  else if e.cls = .bad_format_exception then .BAD_FORMAT
  else .UNEXPECTED_EXCEPTION

/-- The handlers of the second `try` block (around `summarize_index_metrics`): first
`index_out_of_bounds_exception`, then `std::exception`; both return `UNEXPECTED_EXCEPTION`. -/
def catch_summarize (e : thrown) : exit_codes :=
  if e.cls = .index_out_of_bounds_exception then .UNEXPECTED_EXCEPTION
  else .UNEXPECTED_EXCEPTION

/-- The handler of the third `try` block (around `print_summary`):
`catch(const model::index_out_of_bounds_exception& ex)` returns `UNEXPECTED_EXCEPTION`. -/
def catch_print (_ex : index_out_of_bounds_exception) : exit_codes :=
  .UNEXPECTED_EXCEPTION

/-- Body of the loop `for(int i=1;i<argc;i++)` of `main`, for `folder = argv[i]`. -/
def loop_body {Run Summary : Type} (env : Env Run Summary) (folder : String) : iteration :=
  match env.read folder with
  | .error ex => ⟨"", ex.what ++ "\n", some (.returned (catch_read ex))⟩
  | .ok run =>
    if env.empty run then
      ⟨"", "No InterOp files found" ++ "\n", some (.returned .EMPTY_INTEROP)⟩
    else
      match env.summarize_index_metrics run with
      | .error ex => ⟨"", ex.what ++ "\n", some (.returned (catch_summarize ex))⟩
      | .ok summary =>
        match env.print_summary (env.sort summary) with
        | (text, some ex) => ⟨text, ex.what ++ "\n", some (.returned (catch_print ex))⟩
        | (text, none) => ⟨text, "", none⟩

/-- The loop `for(int i=1;i<argc;i++)` followed by `return SUCCESS;`, run over the remaining
arguments `argv[i], argv[i+1], ...`. -/
def loop {Run Summary : Type} (env : Env Run Summary) : List String → result
  | [] => ⟨"", "", [], .returned .SUCCESS⟩
  | folder :: rest =>
    let it := loop_body env folder
    match it.exit with
    | some t => ⟨it.cout, it.cerr, [folder], t⟩
    | none =>
      let r := loop env rest
      ⟨it.cout ++ r.cout, it.cerr ++ r.cerr, folder :: r.folders_read, r.status⟩

/-- The function `main(int argc, char** argv)` of `index_summary.cpp`; `argc` is the length of
`argv` and `argv[0]` the program name. -/
def main {Run Summary : Type} (env : Env Run Summary) (argv : List String) : result :=
  if argv.length = 0 then
    ⟨"", "No arguments specified!" ++ "\n", [], .returned .INVALID_ARGUMENTS⟩
  else
    let r := loop env (argv.drop 1)
    ⟨"# Version: " ++ env.INTEROP_VERSION ++ "\n" ++ r.cout, r.cerr, r.folders_read, r.status⟩

/-- Texts written one after the other to the same stream. -/
def concat : List String → String
  | [] => ""
  | s :: rest => s ++ concat rest

/-- The run folder is processed without error: it loads, the loaded run is not empty, it is
summarized, and printing the sorted summary completes, having written `text`. -/
def passes {Run Summary : Type} (env : Env Run Summary) (folder : String) (text : String) :
    Prop :=
  ∃ run summary, env.read folder = .ok run ∧ env.empty run = false ∧
    env.summarize_index_metrics run = .ok summary ∧
    env.print_summary (env.sort summary) = (text, none)

/-- A sample environment: runs are numbers (the length of the folder name), summaries are
texts.  Some folder names fail to load, run 0 is empty, runs 1 and 2 fail to summarize, and
printing the summaries "3" and "4" fails after the lane label was written. -/
def sample_env : Env Nat String where
  INTEROP_VERSION := "v1.0.0"
  read := fun folder =>
    if folder = "missing" then .error ⟨.xml_file_not_found_exception, "RunInfo.xml not found"⟩
    else if folder = "malformed" then .error ⟨.xml_parse_exception, "cannot parse"⟩
    else if folder = "badformat" then .error ⟨.bad_format_exception, "bad version"⟩
    else if folder = "outofbounds" then .error ⟨.index_out_of_bounds_exception, "index"⟩
    else if folder = "other" then .error ⟨.other_std_exception, "runtime error"⟩
    else .ok folder.length
  empty := fun run => run == 0
  summarize_index_metrics := fun run =>
    if run = 1 then .error ⟨.index_out_of_bounds_exception, "lane"⟩
    else if run = 2 then .error ⟨.other_std_exception, "invalid argument"⟩
    else .ok (toString run)
  sort := fun summary => summary
  print_summary := fun summary =>
    if summary = "3" then ("Lane 1\n", some ⟨"Lane index exceeds lane count"⟩)
    else if summary = "4" then ("Lane 1\n", some ⟨"index"⟩)
    else ("Lane 1\n" ++ summary ++ "\n", none)

/-! ## `index_summary.cpp`: printing -/

/-- The floating point operations the printing code relies on: the division `val/scale`, the
default argument `scale=1` and the library function `util::format(val, width, precision)`.
`F` stands for the C++ type `float`. -/
structure float_ops (F : Type) where
  div : F → F → F
  one : F
  util_format : F → Int → Int → String

/-- Summary of one index (`index_count_summary`), as seen through the accessors that
`populate_index` calls.  Numeric accessors are taken at the type `float` to which the call
`format(const float val, ...)` converts them. -/
structure index_count_summary (F : Type) where
  id : F
  sample_id : String
  project_name : String
  index1 : String
  index2 : String
  fraction_mapped : F

/-- Summary of one lane (`index_lane_summary`): the aggregate accessors and the stored
sequence of index summaries reached through `size()` and `operator[]`. -/
structure index_lane_summary (F : Type) where
  total_reads : F
  total_pf_reads : F
  total_fraction_mapped_reads : F
  mapped_reads_cv : F
  min_mapped_reads : F
  max_mapped_reads : F
  indices : List (index_count_summary F)

/-- Summary of a flowcell (`index_flowcell_summary`): the stored sequence of lane summaries
reached through `size()` and `operator[]`. -/
structure index_flowcell_summary (F : Type) where
  lanes : List (index_lane_summary F)

/-- One pass of the loop of `print_array`: `out << " "; out.width(width); out.fill(fillch);
out << std::left << *beg;`.  The field width is a minimum and counts the `char`s of the text,
that is its bytes: a text of fewer than `width` bytes is followed by fill characters, a longer
text is written in full.  A text is a string standing for its UTF-8 bytes, so its size is
`String.utf8ByteSize`. -/
def print_cell (value : String) (width : Nat) (fillch : Char) : String :=
  " " ++ value ++ String.mk (List.replicate (width - value.utf8ByteSize) fillch)

/-- The loop `for(;beg != end;++beg)` of `print_array`. -/
def print_cells (width : Nat) (fillch : Char) : List String → String
  | [] => ""
  | value :: rest => print_cell value width fillch ++ print_cells width fillch rest

/-- The function `print_array(out, beg, end, width, fillch)`: every element as a cell, then
`std::endl`.  The overloads for arrays and vectors forward to it. -/
def print_array (values : List String) (width : Nat) (fillch : Char) : String :=
  print_cells width fillch values ++ "\n"

/-- The function `format(const float val, const int width, const int precision,
const float scale)`. -/
def format {F : Type} (ops : float_ops F) (val : F) (width precision : Int) (scale : F) :
    String :=
  ops.util_format (ops.div val scale) width precision

/-- The function `populate_index`: assigns the six entries `values[0]` .. `values[5]`. -/
def populate_index {F : Type} (ops : float_ops F) (summary : index_count_summary F)
    (values : List String) : List String :=
  let values := values.set 0 (format ops summary.id 0 0 ops.one)
  let values := values.set 1 summary.sample_id
  let values := values.set 2 summary.project_name
  let values := values.set 3 summary.index1
  let values := values.set 4 summary.index2
  values.set 5 (format ops summary.fraction_mapped 0 4 ops.one)

/-- The array `flowcell_header` of `print_summary`. -/
def flowcell_header : List String :=
  ["Total Reads", "PF Reads", "% Read Identified (PF)", "CV", "Min", "Max"]

/-- The array `index_header` of `print_summary`. -/
def index_header : List String :=
  ["Index Number", "Sample Id", "Project", "Index 1 (I7)", "Index 2 (I5)",
   "% Read Identified (PF)"]

/-- The function `size_of(const char*(&)[N])`: the number of elements of an array. -/
def size_of (values : List String) : Nat := values.length

/-- The call `values.resize(n)` on a vector of strings. -/
def resize (values : List String) (n : Nat) : List String :=
  values.take n ++ List.replicate (n - values.length) ""

/-- The loop `for(size_t index=0;index<summary.size();++index)` of `print_summary` for a lane:
each pass overwrites `values` through `populate_index` and prints it. -/
def print_index_rows {F : Type} (ops : float_ops F) (width : Nat) :
    List (index_count_summary F) → List String → String
  | [], _ => ""
  | summary :: rest, values =>
    let values := populate_index ops summary values
    print_array values width ' ' ++ print_index_rows ops width rest values

/-- The overload `print_summary(std::ostream&, const index_lane_summary&)`. -/
def print_summary_lane {F : Type} (ops : float_ops F) (summary : index_lane_summary F) :
    String :=
  let width := 15
  let out1 := print_array flowcell_header width ' '
  let values := List.replicate (size_of flowcell_header) ""
  let values := values.set 0 (format ops summary.total_reads 0 0 ops.one)
  let values := values.set 1 (format ops summary.total_pf_reads 0 0 ops.one)
  let values := values.set 2 (format ops summary.total_fraction_mapped_reads 0 4 ops.one)
  let values := values.set 3 (format ops summary.mapped_reads_cv 0 4 ops.one)
  let values := values.set 4 (format ops summary.min_mapped_reads 0 4 ops.one)
  let values := values.set 5 (format ops summary.max_mapped_reads 0 4 ops.one)
  let out2 := print_array values width ' '
  let values := resize values (size_of index_header)
  let out3 := print_array index_header width ' '
  out1 ++ out2 ++ out3 ++ print_index_rows ops width summary.indices values

/-- The loop `for(size_t lane=0;lane<summary.size();++lane)` of `print_summary` for a
flowcell, entered with the loop counter `lane` and the lanes not yet printed. -/
def print_lanes {F : Type} (ops : float_ops F) : Nat → List (index_lane_summary F) → String
  | _, [] => ""
  | lane, summary :: rest =>
    "Lane " ++ toString (lane + 1) ++ "\n" ++ print_summary_lane ops summary
      ++ print_lanes ops (lane + 1) rest

/-- The overload `print_summary(std::ostream&, const index_flowcell_summary&)`. -/
def print_summary {F : Type} (ops : float_ops F) (summary : index_flowcell_summary F) :
    String :=
  print_lanes ops 0 summary.lanes

/-! ### The layout of the printed summary, stated independently of the loops -/

/-- The six cell texts of the aggregate row of a lane. -/
def aggregate_cells {F : Type} (ops : float_ops F) (summary : index_lane_summary F) :
    List String :=
  [format ops summary.total_reads 0 0 ops.one,
   format ops summary.total_pf_reads 0 0 ops.one,
   format ops summary.total_fraction_mapped_reads 0 4 ops.one,
   format ops summary.mapped_reads_cv 0 4 ops.one,
   format ops summary.min_mapped_reads 0 4 ops.one,
   format ops summary.max_mapped_reads 0 4 ops.one]

/-- The six cell texts of the row of one index. -/
def index_cells {F : Type} (ops : float_ops F) (summary : index_count_summary F) :
    List String :=
  [format ops summary.id 0 0 ops.one, summary.sample_id, summary.project_name, summary.index1,
   summary.index2, format ops summary.fraction_mapped 0 4 ops.one]

/-- The cell texts of the rows of a lane, row by row: the first header, the aggregate row, the
index header, then one row per stored index, in stored order. -/
def lane_cells {F : Type} (ops : float_ops F) (summary : index_lane_summary F) :
    List (List String) :=
  flowcell_header :: aggregate_cells ops summary :: index_header
    :: summary.indices.map (index_cells ops)

/-- The block of the lane at position `i` (counted from 0): the label line, then the rows of
the lane. -/
def lane_block {F : Type} (ops : float_ops F) (i : Nat) (summary : index_lane_summary F) :
    List String :=
  ("Lane " ++ toString (i + 1) ++ "\n")
    :: (lane_cells ops summary).map (fun cells => print_array cells 15 ' ')

/-- The block of a lane as the text summary is described: the label line, a header row, the
aggregate row, then one row per stored index. -/
def described_lane_block {F : Type} (ops : float_ops F) (i : Nat)
    (summary : index_lane_summary F) : List String :=
  ("Lane " ++ toString (i + 1) ++ "\n")
    :: print_array flowcell_header 15 ' '
    :: print_array (aggregate_cells ops summary) 15 ' '
    :: summary.indices.map (fun x => print_array (index_cells ops x) 15 ' ')

/-- Sample floating point operations over the natural numbers: truncating division, and a
`util::format` that writes the number in decimal. -/
def sample_ops : float_ops Nat := ⟨fun a b => a / b, 1, fun v _ _ => toString v⟩

/-- A sample index whose sample id has 8 characters and 9 bytes. -/
def sample_index : index_count_summary Nat := ⟨1, "Séquence", "ProjA", "ATCACG", "AGGCTA", 55⟩

/-- A sample lane with two indices. -/
def sample_lane : index_lane_summary Nat :=
  ⟨1000, 900, 95, 3, 40, 55, [sample_index, ⟨2, "S2", "ProjA", "CGATGT", "TTGACC", 40⟩]⟩

/-- A sample lane without indices. -/
def sample_lane_without_indices : index_lane_summary Nat := ⟨0, 0, 0, 0, 0, 0, []⟩

/-- A sample flowcell whose only lane has no indices. -/
def sample_flowcell : index_flowcell_summary Nat := ⟨[sample_lane_without_indices]⟩

end IndexSummary

namespace Example4

/-! ## `example4.cpp` -/

/-- Dynamic type of an exception leaving `read_interop`, as far as the catch clauses of `main`
tell them apart; `other_exception` is any class that none of the three handlers catches. -/
inductive exception_class
  | incomplete_file_exception
  | bad_format_exception
  | file_not_found_exception
  | other_exception
  deriving DecidableEq, Repr

/-- A thrown exception object: its class and the text returned by `what()`. -/
structure thrown where
  cls : exception_class
  what : String
  deriving DecidableEq, Repr

/-- The collaborators of `main`.  `read_interop file` gives the records held by the metric set
after the call and the exception the call threw, if any.  `mean` and `variance` are the
library templates applied with `op::opt1(constants::A, &corrected_intensity_metric::percentBase)`,
`sqrt` is `std::sqrt` and `show_float` is `operator<<` for `float`. -/
structure Env (Metric F : Type) where
  read_interop : String → List Metric × Option thrown
  mean : List Metric → F
  variance : List Metric → F
  sqrt : F → F
  show_float : F → String

/-- How `main` ends: by a `return` statement, or by an exception that no handler catches. -/
inductive termination
  | returned (code : Int)
  | uncaught (e : thrown)
  deriving DecidableEq, Repr

/-- Observable behaviour of `main`: the text written to `std::cout` and `std::cerr`, the
records the statistics were computed from (`none` when they were not computed), and how `main`
ended. -/
structure result (Metric : Type) where
  cout : String
  cerr : String
  summarized : Option (List Metric)
  status : termination
  deriving DecidableEq, Repr

/-- The function `check_args(int argc)`: the returned value and the text written to
`std::cerr`. -/
def check_args (argc : Int) : Int × String :=
  if argc ≠ 2 then
    if argc < 2 then (1, "No run folder" ++ "\n")
    else (1, "Too many arguments" ++ "\n")
  else (0, "")

/-- The statements of `main` after the `try` block: mean and standard deviation of the records
in the metric set, written to `std::cout`, then `return 0`. -/
def report {Metric F : Type} (env : Env Metric F) (cerr : String) (metrics : List Metric) :
    result Metric :=
  let avg := env.mean metrics
  let std := env.sqrt (env.variance metrics)
  ⟨"Mean of percent base for A " ++ env.show_float avg ++ "\n"
      ++ "Standard Deviation of percent base for A " ++ env.show_float std ++ "\n",
    cerr, some metrics, .returned 0⟩

/-- The function `main(int argc, char** argv)` of `example4.cpp`; `argc` is the length of
`argv`. -/
def main {Metric F : Type} (env : Env Metric F) (argv : List String) : result Metric :=
  let ret := check_args argv.length
  if ret.1 ≠ 0 then ⟨"", ret.2, none, .returned ret.1⟩
  else
    match env.read_interop (argv.getD 1 "") with
    | (metrics, none) => report env ret.2 metrics
    | (metrics, some ex) =>
      if ex.cls = .incomplete_file_exception then report env ret.2 metrics
      else if ex.cls = .bad_format_exception then
        ⟨"", ret.2 ++ "InterOp did not have the expected format: " ++ ex.what ++ "\n", none,
          .returned 1⟩
      else if ex.cls = .file_not_found_exception then
        ⟨"", ret.2 ++ "Count not find InterOp file: " ++ ex.what ++ "\n", none, .returned 1⟩
      else ⟨"", ret.2, none, .uncaught ex⟩

/-- A sample environment: metrics are numbers, `float` values are numbers; the file name decides
what `read_interop` does. -/
def sample_env : Env Nat Nat where
  read_interop := fun file =>
    if file = "complete.bin" then ([10, 20, 30], none)
    else if file = "truncated.bin" then
      ([10, 20], some ⟨.incomplete_file_exception, "partial record"⟩)
    else if file = "badversion.bin" then ([], some ⟨.bad_format_exception, "bad version"⟩)
    else if file = "unreadable.bin" then ([], some ⟨.other_exception, "io failure"⟩)
    else ([], some ⟨.file_not_found_exception, file⟩)
  mean := fun metrics => metrics.sum / metrics.length
  variance := fun metrics =>
    (metrics.map (fun x =>
      (x - metrics.sum / metrics.length + (metrics.sum / metrics.length - x)) ^ 2)).sum
      / metrics.length
  sqrt := fun x => ((List.range (x + 1)).filter (fun r => r * r ≤ x)).length - 1
  show_float := fun x => toString x

end Example4

namespace Codec

/-! ## Binary codec for collapsed q-score metrics

The test file `q_collapsed_metrics_test.cpp` exercises `read_metrics`, `write_metrics` and the
metric set for the formats `q_collapsed_v2` and `q_collapsed_v6`; their code is not among the
embedded files, so the definitions below follow the specification (sections 3, 4.1 to 4.3, 6
and 7). -/

/-- Modelled from the spec: the error taxonomy of section 7 (the code of the exception classes
is missing). -/
inductive ErrorKind
  | FileNotFound
  | IncompleteFile
  | BadFormat
  | DuplicateKey
  | IndexOutOfBounds
  deriving DecidableEq, Repr

/-- Modelled from the spec: the collapsed q-score record of section 3 (the class
`q_collapsed_metric` is missing): key (lane, tile, cycle) plus `q20`, `q30` and
`median_qscore`. -/
structure q_collapsed_metric where
  lane : Nat
  tile : Nat
  cycle : Nat
  q20 : Nat
  q30 : Nat
  median_qscore : Nat
  deriving DecidableEq, Repr

/-- Modelled from the spec: the record key of section 3 (the class `base_cycle_metric` is
missing): the composite (lane, tile, cycle). -/
def q_collapsed_metric.key (r : q_collapsed_metric) : Nat × Nat × Nat :=
  (r.lane, r.tile, r.cycle)

/-- Modelled from the spec: one entry of the Record Layout Registry of section 4.1 (the layout
classes are missing): `record_size_bytes()`, `decode(buffer)`, `encode(record)`, and which
records are valid for the layout (their fields fit its field widths).  A byte is a natural
number below 256. -/
structure Layout where
  record_size_bytes : Nat
  decode : List Nat → q_collapsed_metric
  encode : q_collapsed_metric → List Nat
  valid : q_collapsed_metric → Bool

/-- Modelled from the spec: the table (kind, version) → layout of sections 4.1 and 6 for the
collapsed q-score kind (the table is missing); the supported versions 2 and 6 are the formats
`q_collapsed_v2` and `q_collapsed_v6` the test file lists. -/
structure Registry where
  v2 : Layout
  v6 : Layout

/-- Modelled from the spec: resolving a version tag through the registry (section 4.1; the
table is missing); an unrecognised version resolves to nothing. -/
def Registry.resolve (reg : Registry) (version : Nat) : Option Layout :=
  if version = 2 then some reg.v2
  else if version = 6 then some reg.v6
  else none

/-- Modelled from the spec: the Metric Set of sections 3 and 4.3 (the class `metric_set` is
missing): format version, derived `max_cycle`, and the records in insertion order. -/
structure metric_set where
  version : Nat
  max_cycle : Nat
  records : List q_collapsed_metric
  deriving DecidableEq, Repr

/-- Modelled from the spec: the number of records of a metric set (section 4.3; the class
`metric_set` is missing). -/
def metric_set.size (S : metric_set) : Nat := S.records.length

/-- Modelled from the spec: the empty metric set carrying a format version (the class
`metric_set` is missing; section 4.2: a zero-byte payload gives an empty set with the version
still recorded). -/
def metric_set.empty (version : Nat) : metric_set := ⟨version, 0, []⟩

/-- Modelled from the spec: `append` of section 4.3 (the class `metric_set` is missing):
rejects a duplicate key with `DuplicateKey`, otherwise adds the record at the end and
recomputes `max_cycle` incrementally. -/
def metric_set.append (S : metric_set) (r : q_collapsed_metric) : Except ErrorKind metric_set :=
  if r.key ∈ S.records.map q_collapsed_metric.key then .error .DuplicateKey
  else .ok ⟨S.version, max S.max_cycle r.cycle, S.records ++ [r]⟩

/-- Modelled from the spec: outcome of `read(source)` (the function `read_metrics` is missing):
the metric set as populated when the read ended, and the error the read failed with, if any
(section 7: the errors are carried in a result value). -/
structure read_result where
  set : metric_set
  error : Option ErrorKind
  deriving DecidableEq, Repr

/-- Modelled from the spec: the record loop of the decode algorithm of section 4.2 (the
function `read_metrics` is missing).  Each pass reads one record-width chunk: at end of stream
the read is complete; a partial chunk fails with `IncompleteFile`; a full chunk is decoded and
appended.  The first argument bounds the number of passes. -/
def read_records (L : Layout) : Nat → List Nat → metric_set → read_result
  | 0, _, S => ⟨S, none⟩
  | fuel + 1, stream, S =>
    if stream.length = 0 then ⟨S, none⟩
    else if stream.length < L.record_size_bytes then ⟨S, some .IncompleteFile⟩
    else
      match S.append (L.decode (stream.take L.record_size_bytes)) with
      | .error e => ⟨S, some e⟩
      | .ok S1 => read_records L fuel (stream.drop L.record_size_bytes) S1

/-- Modelled from the spec: `read(source)` of section 4.2 (the function `read_metrics` is
missing).  The header is the version tag followed by the record width; an unresolved version
or a width that differs from the layout fails with `BadFormat`.  The spec does not say what a
stream that ends inside the header gives; it is taken as `IncompleteFile`. -/
def read_metrics (reg : Registry) (stream : List Nat) : read_result :=
  match stream with
  | [] => ⟨metric_set.empty 0, some .IncompleteFile⟩
  | version :: rest =>
    match reg.resolve version with
    | none => ⟨metric_set.empty 0, some .BadFormat⟩
    | some L =>
      match rest with
      | [] => ⟨metric_set.empty version, some .IncompleteFile⟩
      | width :: payload =>
        if width ≠ L.record_size_bytes then ⟨metric_set.empty version, some .BadFormat⟩
        else read_records L payload.length payload (metric_set.empty version)

/-- Modelled from the spec: the q-score record of section 3 (the class `q_metric` is missing):
key plus a histogram, one pair (quality floor, count) per bin, in bin order. -/
structure q_metric where
  lane : Nat
  tile : Nat
  cycle : Nat
  histogram : List (Nat × Nat)
  deriving DecidableEq, Repr

/-- Modelled from the spec: the record key of a q-score record (section 3; the class
`q_metric` is missing). -/
def q_metric.key (r : q_metric) : Nat × Nat × Nat := (r.lane, r.tile, r.cycle)

/-- Modelled from the spec: little-endian encoding of a number in `n` bytes, used by the sample
layouts (the spec fixes no byte order; the layout classes are missing). -/
def le_bytes : Nat → Nat → List Nat
  | 0, _ => []
  | n + 1, x => x % 256 :: le_bytes n (x / 256)

/-- Modelled from the spec: little-endian value of a list of bytes, used by the sample layouts
(the layout classes are missing). -/
def le_value : List Nat → Nat
  | [] => 0
  | b :: rest => b % 256 + 256 * le_value rest

/-- Modelled from the spec: a sample layout meeting the contract of section 4.1 (the layout
classes are missing and the spec fixes no field widths): a lane of 2 bytes, a tile of
`tile_bytes` bytes, a cycle of 2 bytes and three 4-byte fields. -/
def sample_layout (tile_bytes : Nat) : Layout where
  record_size_bytes := 2 + tile_bytes + 2 + 4 + 4 + 4
  decode := fun buffer =>
    { lane := le_value (buffer.take 2)
      tile := le_value ((buffer.drop 2).take tile_bytes)
      cycle := le_value ((buffer.drop (2 + tile_bytes)).take 2)
      q20 := le_value ((buffer.drop (2 + tile_bytes + 2)).take 4)
      q30 := le_value ((buffer.drop (2 + tile_bytes + 2 + 4)).take 4)
      median_qscore := le_value ((buffer.drop (2 + tile_bytes + 2 + 4 + 4)).take 4) }
  encode := fun r =>
    le_bytes 2 r.lane ++ le_bytes tile_bytes r.tile ++ le_bytes 2 r.cycle ++ le_bytes 4 r.q20
      ++ le_bytes 4 r.q30 ++ le_bytes 4 r.median_qscore
  valid := fun r =>
    decide (r.lane < 256 ^ 2 ∧ r.tile < 256 ^ tile_bytes ∧ r.cycle < 256 ^ 2 ∧ r.q20 < 256 ^ 4
      ∧ r.q30 < 256 ^ 4 ∧ r.median_qscore < 256 ^ 4)

/-- Modelled from the spec: a sample registry (the table is missing): version 2 with a 2-byte
tile, version 6 with a 4-byte tile. -/
def sample_registry : Registry := ⟨sample_layout 2, sample_layout 4⟩

/-- A sample record of 18 bytes in the version 2 sample layout: lane 1, tile 1101 (0x044D),
cycle 1, q20 = 9, q30 = 8, median 30. -/
def sample_chunk : List Nat := [1, 0, 77, 4, 1, 0, 9, 0, 0, 0, 8, 0, 0, 0, 30, 0, 0, 0]

/-- A second sample record, equal to `sample_chunk` except for cycle 2. -/
def sample_chunk_cycle2 : List Nat :=
  [1, 0, 77, 4, 2, 0, 9, 0, 0, 0, 8, 0, 0, 0, 30, 0, 0, 0]

end Codec

/-! # Theorems -/

set_option maxRecDepth 100000

namespace IndexSummary

/-! ## `main` of `index_summary.cpp` -/

/-- A folder that is processed without error writes its summary and lets the loop go on. -/
theorem loop_body_of_passes {Run Summary : Type} (env : Env Run Summary) (folder text : String)
    (h : passes env folder text) : loop_body env folder = ⟨text, "", none⟩ := by
  obtain ⟨run, summary, hread, hempty, hsum, hprint⟩ := h
  simp [loop_body, hread, hempty, hsum, hprint]

/-- One pass of the loop either processes the folder without error, or returns a code that is none
of `SUCCESS`, `NO_INTEROPS_FOUND`, `IMPROPER_RUNINFO_XML`, `INVALID_ARGUMENTS`. -/
theorem loop_body_cases {Run Summary : Type} (env : Env Run Summary) (folder : String) :
    (∃ text, passes env folder text ∧ loop_body env folder = ⟨text, "", none⟩) ∨
      (∃ code, (loop_body env folder).exit = some (.returned code) ∧ code ≠ .SUCCESS ∧
        code ≠ .NO_INTEROPS_FOUND ∧ code ≠ .IMPROPER_RUNINFO_XML ∧
        code ≠ .INVALID_ARGUMENTS) := by
  cases hread : env.read folder with
  | error ex =>
    right
    refine ⟨catch_read ex, by simp [loop_body, hread], ?_⟩
    unfold catch_read
    split_ifs <;> simp
  | ok run =>
    cases hempty : env.empty run with
    | true =>
      right
      exact ⟨.EMPTY_INTEROP, by simp [loop_body, hread, hempty], by simp⟩
    | false =>
      cases hsum : env.summarize_index_metrics run with
      | error ex =>
        right
        refine ⟨catch_summarize ex, by simp [loop_body, hread, hempty, hsum], ?_⟩
        unfold catch_summarize
        split_ifs <;> simp
      | ok summary =>
        rcases hprint : env.print_summary (env.sort summary) with ⟨text, _ | ex⟩
        · left
          exact ⟨text, ⟨run, summary, hread, hempty, hsum, hprint⟩,
            by simp [loop_body, hread, hempty, hsum, hprint]⟩
        · right
          exact ⟨.UNEXPECTED_EXCEPTION,
            by simp [loop_body, hread, hempty, hsum, hprint, catch_print], by simp⟩

/-- A folder is processed without error unless one of the four errors occurs: the run fails to
load, the loaded run is empty, `summarize_index_metrics` fails, or printing fails. -/
theorem passes_or_error {Run Summary : Type} (env : Env Run Summary) (folder : String) :
    (∃ text, passes env folder text) ∨
      (∃ ex, env.read folder = .error ex) ∨
      (∃ run, env.read folder = .ok run ∧ env.empty run = true) ∨
      (∃ run ex, env.read folder = .ok run ∧ env.empty run = false ∧
        env.summarize_index_metrics run = .error ex) ∨
      (∃ run summary text ex, env.read folder = .ok run ∧ env.empty run = false ∧
        env.summarize_index_metrics run = .ok summary ∧
        env.print_summary (env.sort summary) = (text, some ex)) := by
  cases hread : env.read folder with
  | error ex => exact Or.inr (Or.inl ⟨ex, rfl⟩)
  | ok run =>
    cases hempty : env.empty run with
    | true => exact Or.inr (Or.inr (Or.inl ⟨run, rfl, hempty⟩))
    | false =>
      cases hsum : env.summarize_index_metrics run with
      | error ex => exact Or.inr (Or.inr (Or.inr (Or.inl ⟨run, ex, rfl, hempty, hsum⟩)))
      | ok summary =>
        rcases hprint : env.print_summary (env.sort summary) with ⟨text, _ | ex⟩
        · exact Or.inl ⟨text, run, summary, hread, hempty, hsum, hprint⟩
        · exact Or.inr (Or.inr (Or.inr (Or.inr
            ⟨run, summary, text, ex, rfl, hempty, hsum, hprint⟩)))

/-- Each of the four errors keeps the folder from being processed without error. -/
theorem not_passes_of_error {Run Summary : Type} (env : Env Run Summary) (folder : String)
    (h : (∃ ex, env.read folder = .error ex) ∨
      (∃ run, env.read folder = .ok run ∧ env.empty run = true) ∨
      (∃ run ex, env.read folder = .ok run ∧ env.empty run = false ∧
        env.summarize_index_metrics run = .error ex) ∨
      (∃ run summary text ex, env.read folder = .ok run ∧ env.empty run = false ∧
        env.summarize_index_metrics run = .ok summary ∧
        env.print_summary (env.sort summary) = (text, some ex))) :
    ∀ text, ¬ passes env folder text := by
  rintro text ⟨run0, summary0, hread0, hempty0, hsum0, hprint0⟩
  rcases h with ⟨ex, hread⟩ | ⟨run, hread, hempty⟩ | ⟨run, ex, hread, hempty, hsum⟩ |
    ⟨run, summary, text1, ex, hread, hempty, hsum, hprint⟩
  · rw [hread] at hread0; cases hread0
  · rw [hread] at hread0; cases hread0
    rw [hempty] at hempty0; cases hempty0
  · rw [hread] at hread0; cases hread0
    rw [hsum] at hsum0; cases hsum0
  · rw [hread] at hread0; cases hread0
    rw [hsum] at hsum0; cases hsum0
    rw [hprint] at hprint0; cases hprint0

/-- A pass that ends `main` ends the loop: the remaining folders are not touched. -/
theorem loop_cons_exit {Run Summary : Type} (env : Env Run Summary) (folder : String)
    (rest : List String) (t : termination) (h : (loop_body env folder).exit = some t) :
    loop env (folder :: rest)
      = ⟨(loop_body env folder).cout, (loop_body env folder).cerr, [folder], t⟩ := by
  simp [loop, h]

/-- A pass without error is followed by the loop over the remaining folders. -/
theorem loop_cons_passes {Run Summary : Type} (env : Env Run Summary) (folder text : String)
    (rest : List String) (h : passes env folder text) :
    loop env (folder :: rest)
      = ⟨text ++ (loop env rest).cout, (loop env rest).cerr, folder :: (loop env rest).folders_read,
          (loop env rest).status⟩ := by
  simp [loop, loop_body_of_passes env folder text h]

/-- The loop over folders that all pass, followed by further folders. -/
theorem loop_append_passes {Run Summary : Type} (env : Env Run Summary) (pre texts : List String)
    (rest : List String) (h : List.Forall₂ (passes env) pre texts) :
    loop env (pre ++ rest)
      = ⟨concat texts ++ (loop env rest).cout, (loop env rest).cerr,
          pre ++ (loop env rest).folders_read, (loop env rest).status⟩ := by
  induction h with
  | nil => simp [concat]
  | cons hhead _ ih =>
    rw [List.cons_append, loop_cons_passes env _ _ _ hhead, ih]
    simp [concat, String.append_assoc]

/-- With at least the program name in `argv`, `main` writes the version line and runs the loop
over the remaining arguments. -/
theorem main_cons {Run Summary : Type} (env : Env Run Summary) (prog : String)
    (folders : List String) :
    main env (prog :: folders)
      = ⟨"# Version: " ++ env.INTEROP_VERSION ++ "\n" ++ (loop env folders).cout,
          (loop env folders).cerr, (loop env folders).folders_read,
          (loop env folders).status⟩ := by
  simp [main]

/-- The result of `main` when the folders before `folder` pass and the pass for `folder` ends
`main`. -/
theorem main_at_failing_folder {Run Summary : Type} (env : Env Run Summary) (prog : String)
    (pre texts : List String) (folder : String) (post : List String) (t : termination)
    (hpre : List.Forall₂ (passes env) pre texts)
    (h : (loop_body env folder).exit = some t) :
    main env (prog :: (pre ++ folder :: post))
      = ⟨"# Version: " ++ env.INTEROP_VERSION ++ "\n"
            ++ (concat texts ++ (loop_body env folder).cout),
          (loop_body env folder).cerr, pre ++ [folder], t⟩ := by
  rw [main_cons, loop_append_passes env pre texts _ hpre, loop_cons_exit env folder post t h]

/-- The loop ends with `SUCCESS` only if every folder was processed without error. -/
theorem loop_success {Run Summary : Type} (env : Env Run Summary) (folders : List String)
    (h : (loop env folders).status = .returned .SUCCESS) :
    ∀ g ∈ folders, ∃ text, passes env g text := by
  induction folders with
  | nil => simp
  | cons folder rest ih =>
    rcases loop_body_cases env folder with ⟨text, hp, _⟩ | ⟨code, hexit, hne, _⟩
    · rw [loop_cons_passes env folder text rest hp] at h
      intro g hg
      rcases List.mem_cons.mp hg with rfl | hg
      · exact ⟨text, hp⟩
      · exact ih h g hg
    · rw [loop_cons_exit env folder rest _ hexit] at h
      simp at h
      exact absurd h hne

/-- The loop always ends by a `return` statement, and never with `NO_INTEROPS_FOUND`,
`IMPROPER_RUNINFO_XML` or `INVALID_ARGUMENTS`. -/
theorem loop_returns {Run Summary : Type} (env : Env Run Summary) (folders : List String) :
    ∃ code, (loop env folders).status = .returned code ∧ code ≠ .NO_INTEROPS_FOUND ∧
      code ≠ .IMPROPER_RUNINFO_XML ∧ code ≠ .INVALID_ARGUMENTS := by
  induction folders with
  | nil => exact ⟨.SUCCESS, by simp [loop]⟩
  | cons folder rest ih =>
    rcases loop_body_cases env folder with ⟨text, hp, _⟩ | ⟨code, hexit, _, h1, h2, h3⟩
    · rw [loop_cons_passes env folder text rest hp]
      exact ih
    · rw [loop_cons_exit env folder rest _ hexit]
      exact ⟨code, rfl, h1, h2, h3⟩

/-- The loop never returns `NO_INTEROPS_FOUND`, `IMPROPER_RUNINFO_XML` or `INVALID_ARGUMENTS`. -/
theorem loop_never_returns {Run Summary : Type} (env : Env Run Summary) (folders : List String) :
    (loop env folders).status ≠ .returned .NO_INTEROPS_FOUND ∧
      (loop env folders).status ≠ .returned .IMPROPER_RUNINFO_XML ∧
      (loop env folders).status ≠ .returned .INVALID_ARGUMENTS := by
  obtain ⟨code, hcode, h1, h2, h3⟩ := loop_returns env folders
  rw [hcode]
  simp [h1, h2, h3]

/-- The function `main` always ends by a `return` statement. -/
theorem main_returns {Run Summary : Type} (env : Env Run Summary) (argv : List String) :
    ∃ code, (main env argv).status = .returned code := by
  cases argv with
  | nil => exact ⟨.INVALID_ARGUMENTS, by simp [main]⟩
  | cons prog folders =>
    obtain ⟨code, hcode, _⟩ := loop_returns env folders
    exact ⟨code, by rw [main_cons]; exact hcode⟩

/-- C4: `main` returns a non-zero exit code whenever an error occurs while processing any of
its run-folder arguments (the run fails to load, the loaded run is empty,
`summarize_index_metrics` fails, or printing fails); `main` returns `SUCCESS` only when every
run-folder argument was loaded, found non-empty, summarized, sorted and printed without error;
every enumerator other than `SUCCESS` is non-zero and the enumerators are pairwise distinct. -/
theorem main_exit_code_on_error {Run Summary : Type} (env : Env Run Summary)
    (argv : List String) :
    ((∃ g ∈ argv.drop 1,
        (∃ ex, env.read g = .error ex) ∨
        (∃ run, env.read g = .ok run ∧ env.empty run = true) ∨
        (∃ run ex, env.read g = .ok run ∧ env.empty run = false ∧
          env.summarize_index_metrics run = .error ex) ∨
        (∃ run summary text ex, env.read g = .ok run ∧ env.empty run = false ∧
          env.summarize_index_metrics run = .ok summary ∧
          env.print_summary (env.sort summary) = (text, some ex))) →
      ∃ code, (main env argv).status = .returned code ∧ code.value ≠ 0) ∧
    ((main env argv).status = .returned .SUCCESS →
      ∀ g ∈ argv.drop 1, ∃ run summary text, env.read g = .ok run ∧ env.empty run = false ∧
        env.summarize_index_metrics run = .ok summary ∧
        env.print_summary (env.sort summary) = (text, none)) ∧
    (∀ code : exit_codes, code ≠ .SUCCESS → code.value ≠ 0) ∧
    (∀ c d : exit_codes, c ≠ d → c.value ≠ d.value) := by
  have hvalue : ∀ code : exit_codes, code ≠ .SUCCESS → code.value ≠ 0 := by
    intro code hne
    cases code <;> simp [exit_codes.value] at hne ⊢
  have hsuccess : (main env argv).status = .returned .SUCCESS →
      ∀ g ∈ argv.drop 1, ∃ text, passes env g text := by
    intro h g hg
    cases argv with
    | nil => simp at hg
    | cons prog0 folders =>
      rw [main_cons] at h
      exact loop_success env folders h g (by simpa using hg)
  refine ⟨?_, ?_, hvalue, ?_⟩
  · rintro ⟨g, hg, h⟩
    obtain ⟨code, hcode⟩ := main_returns env argv
    refine ⟨code, hcode, hvalue code ?_⟩
    rintro rfl
    obtain ⟨text, hp⟩ := hsuccess hcode g hg
    exact not_passes_of_error env g h text hp
  · intro h g hg
    obtain ⟨text, run, summary, hp⟩ := hsuccess h g hg
    exact ⟨run, summary, text, hp⟩
  · intro c d hne
    cases c <;> cases d <;> simp [exit_codes.value] at hne ⊢

/-- Witness for C4: each of the four kinds of error at one of the folders of the sample
environment, and a successful run over two folders. -/
theorem main_exit_code_on_error_witness :
    (∃ code, (main sample_env ["index-summary", "run_a", "missing", "run_b"]).status
        = .returned code ∧ code.value ≠ 0) ∧
    (∃ code, (main sample_env ["index-summary", "run_a", "", "run_b"]).status
        = .returned code ∧ code.value ≠ 0) ∧
    (∃ code, (main sample_env ["index-summary", "run_a", "ab", "run_b"]).status
        = .returned code ∧ code.value ≠ 0) ∧
    (∃ code, (main sample_env ["index-summary", "run_a", "run_b", "abc"]).status
        = .returned code ∧ code.value ≠ 0) ∧
    (∀ g ∈ ["run_a", "run_b"], ∃ run summary text, sample_env.read g = .ok run ∧
      sample_env.empty run = false ∧ sample_env.summarize_index_metrics run = .ok summary ∧
      sample_env.print_summary (sample_env.sort summary) = (text, none)) ∧
    exit_codes.MALFORMED_XML.value ≠ 0 ∧
    exit_codes.BAD_FORMAT.value ≠ exit_codes.EMPTY_INTEROP.value :=
  ⟨(main_exit_code_on_error sample_env ["index-summary", "run_a", "missing", "run_b"]).1
      ⟨"missing", by decide, Or.inl ⟨_, rfl⟩⟩,
   (main_exit_code_on_error sample_env ["index-summary", "run_a", "", "run_b"]).1
      ⟨"", by decide, Or.inr (Or.inl ⟨0, rfl, rfl⟩)⟩,
   (main_exit_code_on_error sample_env ["index-summary", "run_a", "ab", "run_b"]).1
      ⟨"ab", by decide, Or.inr (Or.inr (Or.inl ⟨2, _, rfl, rfl, rfl⟩))⟩,
   (main_exit_code_on_error sample_env ["index-summary", "run_a", "run_b", "abc"]).1
      ⟨"abc", by decide, Or.inr (Or.inr (Or.inr ⟨3, "3", _, _, rfl, rfl, rfl, rfl⟩))⟩,
   (main_exit_code_on_error sample_env ["index-summary", "run_a", "run_b"]).2.1 (by decide),
   (main_exit_code_on_error sample_env ["index-summary"]).2.2.1 .MALFORMED_XML (by decide),
   (main_exit_code_on_error sample_env ["index-summary"]).2.2.2 .BAD_FORMAT .EMPTY_INTEROP
      (by decide)⟩

/-- C9: when the folders before `folder` are processed without error, the result of `main` is
decided by `folder` and no later folder is read.  A load failing with index-out-of-bounds gives
`UNEXPECTED_EXCEPTION`, with a missing run-configuration file `MISSING_RUNINFO_XML`, with an XML
parse error `MALFORMED_XML`, with bad format `BAD_FORMAT`, with any other error
`UNEXPECTED_EXCEPTION`; an empty loaded run gives `EMPTY_INTEROP`; any failure of
`summarize_index_metrics` or of printing gives `UNEXPECTED_EXCEPTION`.  In every case the
summaries of the earlier folders have been written to the output, after the version line. -/
theorem main_first_failing_folder {Run Summary : Type} (env : Env Run Summary) (prog : String)
    (pre texts : List String) (folder : String) (post : List String)
    (hpre : List.Forall₂ (passes env) pre texts) :
    (∀ ex, env.read folder = .error ex →
      main env (prog :: (pre ++ folder :: post))
        = ⟨"# Version: " ++ env.INTEROP_VERSION ++ "\n" ++ concat texts, ex.what ++ "\n",
            pre ++ [folder],
            .returned (match ex.cls with
              | .index_out_of_bounds_exception => .UNEXPECTED_EXCEPTION
              | .xml_file_not_found_exception => .MISSING_RUNINFO_XML
              | .xml_parse_exception => .MALFORMED_XML
              | .bad_format_exception => .BAD_FORMAT
              | .other_std_exception => .UNEXPECTED_EXCEPTION)⟩) ∧
    (∀ run, env.read folder = .ok run → env.empty run = true →
      main env (prog :: (pre ++ folder :: post))
        = ⟨"# Version: " ++ env.INTEROP_VERSION ++ "\n" ++ concat texts,
            "No InterOp files found\n", pre ++ [folder], .returned .EMPTY_INTEROP⟩) ∧
    (∀ run ex, env.read folder = .ok run → env.empty run = false →
      env.summarize_index_metrics run = .error ex →
      main env (prog :: (pre ++ folder :: post))
        = ⟨"# Version: " ++ env.INTEROP_VERSION ++ "\n" ++ concat texts, ex.what ++ "\n",
            pre ++ [folder], .returned .UNEXPECTED_EXCEPTION⟩) ∧
    (∀ run summary text ex, env.read folder = .ok run → env.empty run = false →
      env.summarize_index_metrics run = .ok summary →
      env.print_summary (env.sort summary) = (text, some ex) →
      main env (prog :: (pre ++ folder :: post))
        = ⟨"# Version: " ++ env.INTEROP_VERSION ++ "\n" ++ (concat texts ++ text),
            ex.what ++ "\n", pre ++ [folder], .returned .UNEXPECTED_EXCEPTION⟩) := by
  refine ⟨?_, ?_, ?_, ?_⟩
  · intro ex hread
    have hexit : (loop_body env folder).exit = some (.returned (catch_read ex)) := by
      simp [loop_body, hread]
    rw [main_at_failing_folder env prog pre texts folder post _ hpre hexit]
    have hcode : catch_read ex = (match ex.cls with
        | .index_out_of_bounds_exception => exit_codes.UNEXPECTED_EXCEPTION
        | .xml_file_not_found_exception => .MISSING_RUNINFO_XML
        | .xml_parse_exception => .MALFORMED_XML
        | .bad_format_exception => .BAD_FORMAT
        | .other_std_exception => .UNEXPECTED_EXCEPTION) := by
      unfold catch_read
      cases ex.cls <;> simp
    simp [loop_body, hread, hcode]
  · intro run hread hempty
    have hexit : (loop_body env folder).exit = some (.returned .EMPTY_INTEROP) := by
      simp [loop_body, hread, hempty]
    rw [main_at_failing_folder env prog pre texts folder post _ hpre hexit]
    simp [loop_body, hread, hempty]
  · intro run ex hread hempty hsum
    have hexit : (loop_body env folder).exit = some (.returned .UNEXPECTED_EXCEPTION) := by
      simp [loop_body, hread, hempty, hsum, catch_summarize]
    rw [main_at_failing_folder env prog pre texts folder post _ hpre hexit]
    simp [loop_body, hread, hempty, hsum]
  · intro run summary text ex hread hempty hsum hprint
    have hexit : (loop_body env folder).exit = some (.returned .UNEXPECTED_EXCEPTION) := by
      simp [loop_body, hread, hempty, hsum, hprint, catch_print]
    rw [main_at_failing_folder env prog pre texts folder post _ hpre hexit]
    simp [loop_body, hread, hempty, hsum, hprint]

/-- Witness for C9: each kind of failure at the second of three folders of the sample
environment. -/
theorem main_first_failing_folder_witness :
    main sample_env ["index-summary", "run_a", "badformat", "run_b"]
      = ⟨"# Version: v1.0.0\nLane 1\n5\n", "bad version\n", ["run_a", "badformat"],
          .returned .BAD_FORMAT⟩ ∧
    main sample_env ["index-summary", "run_a", "", "run_b"]
      = ⟨"# Version: v1.0.0\nLane 1\n5\n", "No InterOp files found\n", ["run_a", ""],
          .returned .EMPTY_INTEROP⟩ ∧
    main sample_env ["index-summary", "run_a", "a", "run_b"]
      = ⟨"# Version: v1.0.0\nLane 1\n5\n", "lane\n", ["run_a", "a"],
          .returned .UNEXPECTED_EXCEPTION⟩ ∧
    main sample_env ["index-summary", "run_a", "abcd", "run_b"]
      = ⟨"# Version: v1.0.0\nLane 1\n5\nLane 1\n", "index\n", ["run_a", "abcd"],
          .returned .UNEXPECTED_EXCEPTION⟩ :=
  have hpre : List.Forall₂ (passes sample_env) ["run_a"] ["Lane 1\n5\n"] :=
    List.Forall₂.cons ⟨5, "5", rfl, rfl, rfl, rfl⟩ List.Forall₂.nil
  ⟨((main_first_failing_folder sample_env "index-summary" ["run_a"] ["Lane 1\n5\n"]
        "badformat" ["run_b"] hpre).1 ⟨.bad_format_exception, "bad version"⟩ rfl).trans
      (by decide),
   ((main_first_failing_folder sample_env "index-summary" ["run_a"] ["Lane 1\n5\n"]
        "" ["run_b"] hpre).2.1 0 rfl rfl).trans (by decide),
   ((main_first_failing_folder sample_env "index-summary" ["run_a"] ["Lane 1\n5\n"]
        "a" ["run_b"] hpre).2.2.1 1 ⟨.index_out_of_bounds_exception, "lane"⟩ rfl rfl rfl).trans
      (by decide),
   ((main_first_failing_folder sample_env "index-summary" ["run_a"] ["Lane 1\n5\n"]
        "abcd" ["run_b"] hpre).2.2.2 4 "4" "Lane 1\n" ⟨"index"⟩ rfl rfl rfl rfl).trans
      (by decide)⟩

/-- C5 (code at the failing input): a run folder that loads without error and whose run is
empty makes `main` write "No InterOp files found" and return `EMPTY_INTEROP`, not
`NO_INTEROPS_FOUND`; no argument list makes `main` return `NO_INTEROPS_FOUND` or
`IMPROPER_RUNINFO_XML`. -/
theorem main_empty_run_exit_code {Run Summary : Type} (env : Env Run Summary)
    (prog folder : String) (post : List String) (run : Run)
    (hread : env.read folder = .ok run) (hempty : env.empty run = true) :
    main env (prog :: folder :: post)
      = ⟨"# Version: " ++ env.INTEROP_VERSION ++ "\n", "No InterOp files found\n", [folder],
          .returned .EMPTY_INTEROP⟩ ∧
    exit_codes.EMPTY_INTEROP.value = 5 ∧ exit_codes.NO_INTEROPS_FOUND.value = 2 ∧
    (∀ argv, (main env argv).status ≠ .returned .NO_INTEROPS_FOUND ∧
      (main env argv).status ≠ .returned .IMPROPER_RUNINFO_XML) := by
  refine ⟨?_, rfl, rfl, ?_⟩
  · have hexit : (loop_body env folder).exit = some (.returned .EMPTY_INTEROP) := by
      simp [loop_body, hread, hempty]
    rw [main_cons, loop_cons_exit env folder post _ hexit]
    simp [loop_body, hread, hempty]
  · intro argv
    cases argv with
    | nil => simp [main]
    | cons prog0 folders =>
      rw [main_cons]
      exact ⟨(loop_never_returns env folders).1, (loop_never_returns env folders).2.1⟩

/-- Witness for C5: the folder with the empty name loads as the empty run 0 in the sample
environment. -/
theorem main_empty_run_exit_code_witness :
    sample_env.read "" = .ok 0 ∧ sample_env.empty 0 = true ∧
    main sample_env ["index-summary", "", "run_b"]
      = ⟨"# Version: v1.0.0\n", "No InterOp files found\n", [""], .returned .EMPTY_INTEROP⟩ :=
  ⟨rfl, rfl,
    ((main_empty_run_exit_code sample_env "index-summary" "" ["run_b"] 0 rfl rfl).1).trans
      (by decide)⟩

/-- C8 (code at the failing input): with the program name as only argument (`argc == 1`) `main`
writes the version line, reads no run folder and returns `SUCCESS`; it returns
`INVALID_ARGUMENTS` only for the empty argument vector (`argc == 0`). -/
theorem main_without_run_folder {Run Summary : Type} (env : Env Run Summary) (prog : String) :
    main env [prog]
      = ⟨"# Version: " ++ env.INTEROP_VERSION ++ "\n", "", [], .returned .SUCCESS⟩ ∧
    main env [] = ⟨"", "No arguments specified!\n", [], .returned .INVALID_ARGUMENTS⟩ ∧
    (∀ argv, (main env argv).status = .returned .INVALID_ARGUMENTS ↔ argv = []) := by
  refine ⟨?_, ?_, ?_⟩
  · simp [main, loop]
  · simp [main]
  · intro argv
    cases argv with
    | nil => simp [main]
    | cons prog0 folders =>
      rw [main_cons]
      simp
      exact (loop_never_returns env folders).2.2

/-! ## Printing -/

/-- Writing two sequences of texts one after the other. -/
theorem concat_append (xs ys : List String) : concat (xs ++ ys) = concat xs ++ concat ys := by
  induction xs with
  | nil => simp [concat]
  | cons x rest ih => simp [concat, ih, String.append_assoc]

/-- On a vector of six entries `populate_index` leaves exactly the six cell texts of the index. -/
theorem populate_index_eq {F : Type} (ops : float_ops F) (summary : index_count_summary F)
    (values : List String) (h : values.length = 6) :
    populate_index ops summary values = index_cells ops summary := by
  match values, h with
  | [_, _, _, _, _, _], _ => rfl

/-- The index loop writes one row per stored index, in stored order. -/
theorem print_index_rows_eq {F : Type} (ops : float_ops F) (width : Nat)
    (indices : List (index_count_summary F)) (values : List String) (h : values.length = 6) :
    print_index_rows ops width indices values
      = concat (indices.map (fun x => print_array (index_cells ops x) width ' ')) := by
  induction indices generalizing values with
  | nil => rfl
  | cons x rest ih =>
    simp only [print_index_rows, List.map_cons, concat]
    rw [populate_index_eq ops x values h, ih (index_cells ops x) rfl]

/-- The text written for a lane is the sequence of its rows. -/
theorem print_summary_lane_eq {F : Type} (ops : float_ops F) (summary : index_lane_summary F) :
    print_summary_lane ops summary
      = concat ((lane_cells ops summary).map (fun cells => print_array cells 15 ' ')) := by
  have h : print_summary_lane ops summary
      = print_array flowcell_header 15 ' ' ++ print_array (aggregate_cells ops summary) 15 ' '
          ++ print_array index_header 15 ' '
          ++ print_index_rows ops 15 summary.indices (aggregate_cells ops summary) := rfl
  rw [h, print_index_rows_eq ops 15 summary.indices (aggregate_cells ops summary) rfl]
  simp [lane_cells, concat, String.append_assoc, List.map_map, Function.comp_def]

/-- The text written by the lane loop is the sequence of the lane blocks. -/
theorem print_lanes_eq {F : Type} (ops : float_ops F) (n : Nat)
    (lanes : List (index_lane_summary F)) :
    print_lanes ops n lanes
      = concat ((lanes.enumFrom n).map (fun p => lane_block ops p.1 p.2)).flatten := by
  induction lanes generalizing n with
  | nil => rfl
  | cons s rest ih =>
    simp only [print_lanes, List.enumFrom_cons, List.map_cons, List.flatten_cons, concat_append]
    rw [ih (n + 1), print_summary_lane_eq]
    simp [lane_block, concat, String.append_assoc]

/-- The size in bytes of two texts written one after the other. -/
theorem utf8ByteSize_append (s t : String) :
    (s ++ t).utf8ByteSize = s.utf8ByteSize + t.utf8ByteSize := by
  have h : s ++ t = String.mk (s.data ++ t.data) := String.ext (by simp)
  rw [h, String.utf8ByteSize_mk, String.utf8Len_append]
  cases s; cases t
  simp [String.utf8ByteSize_mk]

/-- A run of `n` spaces takes `n` bytes. -/
theorem utf8ByteSize_spaces (n : Nat) : (String.mk (List.replicate n ' ')).utf8ByteSize = n := by
  rw [String.utf8ByteSize_mk]
  induction n with
  | zero => rfl
  | succ n ih =>
    have h : (' ' : Char).utf8Size = 1 := by decide
    simp [List.replicate_succ, String.utf8Len_cons, ih, h]

/-- A cell takes one byte for the space and at least `width` bytes for the text. -/
theorem print_cell_size (value : String) (width : Nat) :
    (print_cell value width ' ').utf8ByteSize = 1 + max width value.utf8ByteSize := by
  have h : (" " : String).utf8ByteSize = 1 := by decide
  simp only [print_cell, utf8ByteSize_append, utf8ByteSize_spaces, h]
  omega

/-- The cells of a row, written out. -/
theorem print_cells_eq (width : Nat) (fillch : Char) (values : List String) :
    print_cells width fillch values
      = concat (values.map (fun v =>
          " " ++ v ++ String.mk (List.replicate (width - v.utf8ByteSize) fillch))) := by
  induction values with
  | nil => rfl
  | cons v rest ih => simp [print_cells, print_cell, concat, ih]

/-- The cells of a row of short texts all have the same width in bytes. -/
theorem print_cells_size (width : Nat) (values : List String)
    (h : ∀ v ∈ values, v.utf8ByteSize ≤ width) :
    (print_cells width ' ' values).utf8ByteSize = values.length * (width + 1) := by
  induction values with
  | nil => simp [print_cells]; decide
  | cons v rest ih =>
    have hv : v.utf8ByteSize ≤ width := h v (List.mem_cons_self v rest)
    have hrest := ih (fun u hu => h u (List.mem_cons_of_mem v hu))
    simp only [print_cells, utf8ByteSize_append, print_cell_size, hrest, List.length_cons]
    rw [Nat.max_eq_left hv, Nat.add_mul]
    omega

/-- C6 (amended): for a flowcell summary with n lanes `print_summary` writes exactly n blocks in
the summary's lane order; the block at position i (from 0) is the label line "Lane i+1", the
first header row, the aggregate row, the index header row, and then exactly one row per stored
index of that lane, in stored order, so a lane with m indices gives a block of 4 + m lines. -/
theorem print_summary_blocks {F : Type} (ops : float_ops F)
    (summary : index_flowcell_summary F) :
    print_summary ops summary
      = concat ((summary.lanes.enum.map (fun p => lane_block ops p.1 p.2)).flatten) ∧
    (summary.lanes.enum.map (fun p => lane_block ops p.1 p.2)).length
      = summary.lanes.length ∧
    (∀ i, (summary.lanes.enum.map (fun p => lane_block ops p.1 p.2))[i]?
      = (summary.lanes[i]?).map (fun lane => lane_block ops i lane)) ∧
    (∀ i (lane : index_lane_summary F), lane_block ops i lane
      = ("Lane " ++ toString (i + 1) ++ "\n")
          :: print_array flowcell_header 15 ' '
          :: print_array (aggregate_cells ops lane) 15 ' '
          :: print_array index_header 15 ' '
          :: lane.indices.map (fun x => print_array (index_cells ops x) 15 ' ')) ∧
    (∀ i (lane : index_lane_summary F),
      (lane_block ops i lane).length = 4 + lane.indices.length) := by
  refine ⟨?_, ?_, ?_, ?_, ?_⟩
  · exact print_lanes_eq ops 0 summary.lanes
  · simp
  · intro i
    simp [List.enum, Function.comp_def]
  · intro i lane
    simp [lane_block, lane_cells, List.map_map, Function.comp_def]
  · intro i lane
    simp [lane_block, lane_cells]
    omega

/-- C6 (counterexample): for a flowcell with one lane that has no index, `print_summary` writes
four lines (label, first header, aggregate row, index header), not the three lines of a block
made of the label, a header row, the aggregate row and one row per index. -/
theorem print_summary_not_described_blocks :
    print_summary sample_ops sample_flowcell
      = "Lane 1\n"
        ++ " Total Reads     PF Reads        % Read Identified (PF) CV              Min             Max            \n"
        ++ " 0               0               0               0               0               0              \n"
        ++ " Index Number    Sample Id       Project         Index 1 (I7)    Index 2 (I5)    % Read Identified (PF)\n" ∧
    print_summary sample_ops sample_flowcell
      ≠ concat ((sample_flowcell.lanes.enum.map
          (fun p => described_lane_block sample_ops p.1 p.2)).flatten) := by
  refine ⟨by decide, by decide⟩

/-- C7 (amended): every row `print_summary` writes for a lane is `print_array` applied to six
cell texts with width 15; each cell is a single space followed by the text, left-justified and
padded with spaces to at least 15 bytes (a text of more than 15 bytes is written in full), so a
cell takes 1 + max 15 (size of the text) bytes.  A row whose texts all take at most 15 bytes has
96 bytes before the line end and its column j starts at byte offset 16 * j. -/
theorem print_summary_lane_columns {F : Type} (ops : float_ops F)
    (summary : index_lane_summary F) :
    print_summary_lane ops summary
      = concat ((lane_cells ops summary).map (fun cells => print_array cells 15 ' ')) ∧
    (∀ cells ∈ lane_cells ops summary, cells.length = 6) ∧
    (∀ cells : List String, print_array cells 15 ' '
      = concat (cells.map (fun v =>
          " " ++ v ++ String.mk (List.replicate (15 - v.utf8ByteSize) ' '))) ++ "\n") ∧
    (∀ v : String,
      (" " ++ v ++ String.mk (List.replicate (15 - v.utf8ByteSize) ' ')).utf8ByteSize
        = 1 + max 15 v.utf8ByteSize) ∧
    (∀ cells ∈ lane_cells ops summary, (∀ v ∈ cells, v.utf8ByteSize ≤ 15) →
      (print_array cells 15 ' ').utf8ByteSize = 96 + 1 ∧
      ∀ j, j ≤ 6 →
        print_cells 15 ' ' cells
          = print_cells 15 ' ' (cells.take j) ++ print_cells 15 ' ' (cells.drop j) ∧
        (print_cells 15 ' ' (cells.take j)).utf8ByteSize = 16 * j) := by
  have hlen : ∀ cells ∈ lane_cells ops summary, cells.length = 6 := by
    intro cells hcells
    simp only [lane_cells, List.mem_cons, List.mem_map] at hcells
    rcases hcells with rfl | rfl | rfl | ⟨x, _, rfl⟩ <;> rfl
  refine ⟨print_summary_lane_eq ops summary, hlen, ?_, ?_, ?_⟩
  · intro cells
    rw [print_array, print_cells_eq]
  · intro v
    exact print_cell_size v 15
  · intro cells hcells hshort
    have h6 := hlen cells hcells
    have hnl : ("\n" : String).utf8ByteSize = 1 := by decide
    refine ⟨?_, ?_⟩
    · rw [print_array, utf8ByteSize_append, print_cells_size 15 cells hshort, h6, hnl]
    · intro j hj
      refine ⟨?_, ?_⟩
      · have := print_cells_eq 15 ' ' (cells.take j ++ cells.drop j)
        rw [List.map_append, concat_append, ← print_cells_eq, ← print_cells_eq] at this
        rw [← this, List.take_append_drop]
      · rw [print_cells_size 15 (cells.take j)
          (fun v hv => hshort v (List.mem_of_mem_take hv))]
        rw [List.length_take, h6, Nat.min_eq_left hj]
        omega

/-- Witness for C7: the row of the sample index with the sample id "Séquence" (8 characters,
9 bytes) has only short texts; its cell for the sample id is padded with 6 spaces. -/
theorem print_summary_lane_columns_witness :
    index_cells sample_ops sample_index ∈ lane_cells sample_ops sample_lane ∧
    (∀ v ∈ index_cells sample_ops sample_index, v.utf8ByteSize ≤ 15) ∧
    (print_array (index_cells sample_ops sample_index) 15 ' ').utf8ByteSize = 96 + 1 ∧
    (print_cells 15 ' ' ((index_cells sample_ops sample_index).take 3)).utf8ByteSize = 16 * 3 ∧
    print_cell "Séquence" 15 ' ' = " Séquence      " :=
  ⟨by decide, by decide,
    ((print_summary_lane_columns sample_ops sample_lane).2.2.2.2
      (index_cells sample_ops sample_index) (by decide) (by decide)).1,
    (((print_summary_lane_columns sample_ops sample_lane).2.2.2.2
      (index_cells sample_ops sample_index) (by decide) (by decide)).2 3 (by decide)).2,
    by decide⟩

/-- C7 (counterexample): the header cell "% Read Identified (PF)" has 22 characters and is
written in full, not cut or padded to 15; the first header row of the sample lane is therefore
103 bytes long before the line end while its aggregate row is 96 bytes long, so not every row
is made of six cells of one space and 15 characters. -/
theorem print_summary_lane_rows_differ :
    print_cell "% Read Identified (PF)" 15 ' ' = " % Read Identified (PF)" ∧
    (print_array flowcell_header 15 ' ').utf8ByteSize = 103 + 1 ∧
    (print_array (aggregate_cells sample_ops sample_lane) 15 ' ').utf8ByteSize = 96 + 1 ∧
    ¬ (∀ cells ∈ lane_cells sample_ops sample_lane,
        (print_array cells 15 ' ').utf8ByteSize = 6 * (1 + 15) + 1) := by
  refine ⟨by decide, by decide, by decide, by decide⟩

end IndexSummary

namespace Example4

/-! ## `example4.cpp` -/

/-- The value returned by `check_args`. -/
theorem check_args_fst (argc : Int) : (check_args argc).1 = if argc = 2 then 0 else 1 := by
  unfold check_args
  split_ifs <;> simp_all

/-- With an argument count other than 2, `main` returns 1. -/
theorem main_of_length_ne {Metric F : Type} (env : Env Metric F) (argv : List String)
    (h : argv.length ≠ 2) : (main env argv).status = .returned 1 := by
  have hne : ((argv.length : Nat) : Int) ≠ 2 := by exact_mod_cast h
  simp [main, check_args_fst, hne]

/-- With an argument count of 2, `main` is decided by what `read_interop` does. -/
theorem main_of_length_eq {Metric F : Type} (env : Env Metric F) (argv : List String)
    (h : argv.length = 2) :
    main env argv =
      match env.read_interop (argv.getD 1 "") with
      | (metrics, none) => report env "" metrics
      | (metrics, some ex) =>
        if ex.cls = .incomplete_file_exception then report env "" metrics
        else if ex.cls = .bad_format_exception then
          ⟨"", "InterOp did not have the expected format: " ++ ex.what ++ "\n", none,
            .returned 1⟩
        else if ex.cls = .file_not_found_exception then
          ⟨"", "Count not find InterOp file: " ++ ex.what ++ "\n", none, .returned 1⟩
        else ⟨"", "", none, .uncaught ex⟩ := by
  have h2 : ((argv.length : Nat) : Int) = 2 := by exact_mod_cast h
  simp [main, check_args, h2]

/-- C10: `check_args` returns 0 for `argc == 2` and 1 for every other `argc`; `main` returns 0
exactly when `argc == 2` and `read_interop` either succeeds or fails with `incomplete_file`, and
then the statistics are computed from the records the metric set holds after the read; `main`
returns 1 when `argc != 2`, when `read_interop` fails with `bad_format`, and when it fails with
`file_not_found`. -/
theorem example4_main_returns {Metric F : Type} (env : Env Metric F) (argv : List String) :
    (∀ argc : Int, (check_args argc).1 = if argc = 2 then 0 else 1) ∧
    ((main env argv).status = .returned 0 ↔
      argv.length = 2 ∧
        ((env.read_interop (argv.getD 1 "")).2 = none ∨
          ∃ ex, (env.read_interop (argv.getD 1 "")).2 = some ex ∧
            ex.cls = .incomplete_file_exception)) ∧
    ((main env argv).status = .returned 0 →
      (main env argv).summarized = some (env.read_interop (argv.getD 1 "")).1 ∧
      (main env argv).cout
        = "Mean of percent base for A "
            ++ env.show_float (env.mean (env.read_interop (argv.getD 1 "")).1) ++ "\n"
            ++ "Standard Deviation of percent base for A "
            ++ env.show_float (env.sqrt (env.variance (env.read_interop (argv.getD 1 "")).1))
            ++ "\n") ∧
    (argv.length ≠ 2 → (main env argv).status = .returned 1) ∧
    (argv.length = 2 → ∀ ex, (env.read_interop (argv.getD 1 "")).2 = some ex →
      ex.cls = .bad_format_exception → (main env argv).status = .returned 1) ∧
    (argv.length = 2 → ∀ ex, (env.read_interop (argv.getD 1 "")).2 = some ex →
      ex.cls = .file_not_found_exception → (main env argv).status = .returned 1) := by
  refine ⟨check_args_fst, ?_, ?_, main_of_length_ne env argv, ?_, ?_⟩
  · by_cases hlen : argv.length = 2
    · rw [main_of_length_eq env argv hlen]
      rcases hread : env.read_interop (argv.getD 1 "") with ⟨metrics, _ | ex⟩
      · simp [report, hlen]
      · simp only [hlen, true_and]
        split_ifs with h1 h2 h3 <;> simp_all [report]
    · rw [main_of_length_ne env argv hlen]
      simp [hlen]
  · intro h0
    by_cases hlen : argv.length = 2
    · rw [main_of_length_eq env argv hlen] at h0 ⊢
      rcases hread : env.read_interop (argv.getD 1 "") with ⟨metrics, _ | ex⟩
      · simp [report]
      · rw [hread] at h0
        simp only at h0 ⊢
        split_ifs at h0 ⊢ with h1 h2 h3 <;> simp_all [report]
    · rw [main_of_length_ne env argv hlen] at h0
      simp at h0
  · intro hlen ex hread hcls
    rw [main_of_length_eq env argv hlen]
    rcases hr : env.read_interop (argv.getD 1 "") with ⟨metrics, e⟩
    rw [hr] at hread
    simp only at hread
    subst hread
    simp [hcls]
  · intro hlen ex hread hcls
    rw [main_of_length_eq env argv hlen]
    rcases hr : env.read_interop (argv.getD 1 "") with ⟨metrics, e⟩
    rw [hr] at hread
    simp only at hread
    subst hread
    simp [hcls]

/-- Witness for C10: a truncated file gives exit code 0 with the statistics of the two decoded
records; a wrong argument count, an unsupported version and a missing file give exit code 1. -/
theorem example4_main_returns_witness :
    (main sample_env ["example4", "truncated.bin"]).summarized = some [10, 20] ∧
    (main sample_env ["example4", "truncated.bin"]).cout
      = "Mean of percent base for A 15\nStandard Deviation of percent base for A 5\n" ∧
    (main sample_env ["example4"]).status = .returned 1 ∧
    (main sample_env ["example4", "badversion.bin"]).status = .returned 1 ∧
    (main sample_env ["example4", "nowhere.bin"]).status = .returned 1 :=
  have h0 : (main sample_env ["example4", "truncated.bin"]).status = .returned 0 :=
    (example4_main_returns sample_env ["example4", "truncated.bin"]).2.1.mpr
      ⟨rfl, Or.inr ⟨⟨.incomplete_file_exception, "partial record"⟩, rfl, rfl⟩⟩
  ⟨((example4_main_returns sample_env ["example4", "truncated.bin"]).2.2.1 h0).1,
   (((example4_main_returns sample_env ["example4", "truncated.bin"]).2.2.1 h0).2).trans (by decide),
   (example4_main_returns sample_env ["example4"]).2.2.2.1 (by decide),
   (example4_main_returns sample_env ["example4", "badversion.bin"]).2.2.2.2.1 rfl
      ⟨.bad_format_exception, "bad version"⟩ rfl rfl,
   (example4_main_returns sample_env ["example4", "nowhere.bin"]).2.2.2.2.2 rfl
      ⟨.file_not_found_exception, "nowhere.bin"⟩ rfl rfl⟩

end Example4

namespace Codec

/-! ## The codec for collapsed q-score metrics -/

/-- Appending a record with a new key. -/
theorem append_of_fresh (S : metric_set) (r : q_collapsed_metric)
    (h : r.key ∉ S.records.map q_collapsed_metric.key) :
    S.append r = .ok ⟨S.version, max S.max_cycle r.cycle, S.records ++ [r]⟩ := by
  simp only [metric_set.append, if_neg h]

/-- Appending a record whose key is already in the set. -/
theorem append_of_duplicate (S : metric_set) (r : q_collapsed_metric)
    (h : r.key ∈ S.records.map q_collapsed_metric.key) :
    S.append r = .error .DuplicateKey := by
  simp only [metric_set.append, if_pos h]

/-- The record loop on a payload made of full chunks with pairwise distinct new keys and a shorter
rest, with enough passes allowed: all chunks are decoded, in order, and the rest decides between
success and `IncompleteFile`. -/
theorem read_records_chunks (L : Layout) (chunks : List (List Nat)) (extra : List Nat)
    (S : metric_set) (fuel : Nat)
    (hchunks : ∀ c ∈ chunks, c.length = L.record_size_bytes)
    (hextra : extra.length < L.record_size_bytes)
    (hkeys : (S.records.map q_collapsed_metric.key
      ++ chunks.map (fun c => (L.decode c).key)).Nodup)
    (hfuel : (chunks.flatten ++ extra).length ≤ fuel) :
    read_records L fuel (chunks.flatten ++ extra) S
      = ⟨⟨S.version, (chunks.map (fun c => (L.decode c).cycle)).foldl max S.max_cycle,
            S.records ++ chunks.map L.decode⟩,
          if extra.length = 0 then none else some .IncompleteFile⟩ := by
  induction chunks generalizing S fuel with
  | nil =>
    simp only [List.flatten_nil, List.nil_append, List.map_nil, List.foldl_nil,
      List.append_nil] at hfuel ⊢
    cases fuel with
    | zero =>
      have h0 : extra.length = 0 := by omega
      simp [read_records, h0]
    | succ fuel =>
      by_cases h0 : extra.length = 0
      · simp [read_records, h0]
      · simp [read_records, h0, hextra]
  | cons c rest ih =>
    have hc : c.length = L.record_size_bytes := hchunks c (List.mem_cons_self c rest)
    have hrest : ∀ d ∈ rest, d.length = L.record_size_bytes :=
      fun d hd => hchunks d (List.mem_cons_of_mem c hd)
    have hpos : 0 < L.record_size_bytes := by omega
    have hstream : (c :: rest).flatten ++ extra = c ++ (rest.flatten ++ extra) := by
      simp [List.append_assoc]
    rw [hstream] at hfuel ⊢
    rw [List.length_append] at hfuel
    cases fuel with
    | zero => omega
    | succ fuel =>
      have hne : ¬ (c ++ (rest.flatten ++ extra)).length = 0 := by
        rw [List.length_append]; omega
      have hge : ¬ (c ++ (rest.flatten ++ extra)).length < L.record_size_bytes := by
        rw [List.length_append]; omega
      have htake : (c ++ (rest.flatten ++ extra)).take L.record_size_bytes = c :=
        List.take_left' hc
      have hdrop : (c ++ (rest.flatten ++ extra)).drop L.record_size_bytes
          = rest.flatten ++ extra := List.drop_left' hc
      have hfresh : (L.decode c).key ∉ S.records.map q_collapsed_metric.key := by
        intro hmem
        rw [List.map_cons] at hkeys
        have hdis := (List.nodup_append.mp hkeys).2.2
        exact hdis hmem (List.mem_cons_self _ _)
      have hkeys1 : ((S.records ++ [L.decode c]).map q_collapsed_metric.key
          ++ rest.map (fun c => (L.decode c).key)).Nodup := by
        simpa [List.map_append, List.append_assoc] using hkeys
      rw [read_records, if_neg hne, if_neg hge, htake, hdrop, append_of_fresh S _ hfresh]
      simp only []
      rw [ih ⟨S.version, max S.max_cycle (L.decode c).cycle, S.records ++ [L.decode c]⟩ fuel
        hrest hkeys1 (by omega)]
      simp [List.append_assoc]

/-- Reading a stream made of a valid header, full chunks with pairwise distinct keys and a shorter
rest. -/
theorem read_metrics_chunks (reg : Registry) (version : Nat) (L : Layout)
    (hL : reg.resolve version = some L) (chunks : List (List Nat)) (extra : List Nat)
    (hchunks : ∀ c ∈ chunks, c.length = L.record_size_bytes)
    (hkeys : (chunks.map (fun c => (L.decode c).key)).Nodup)
    (hextra : extra.length < L.record_size_bytes) :
    read_metrics reg (version :: L.record_size_bytes :: (chunks.flatten ++ extra))
      = ⟨⟨version, (chunks.map (fun c => (L.decode c).cycle)).foldl max 0,
            chunks.map L.decode⟩,
          if extra.length = 0 then none else some .IncompleteFile⟩ := by
  simp only [read_metrics, hL, ne_eq, not_true_eq_false, if_false]
  rw [read_records_chunks L chunks extra (metric_set.empty version) _ hchunks hextra
    (by simpa [metric_set.empty] using hkeys) (le_refl _)]
  simp [metric_set.empty]

/-- C2: a stream whose version tag is neither 2 nor 6 makes `read_metrics` fail with
`BadFormat` without decoding any record, whatever follows the tag. -/
theorem read_metrics_unsupported_version (reg : Registry) (version : Nat) (rest : List Nat)
    (h2 : version ≠ 2) (h6 : version ≠ 6) :
    (read_metrics reg (version :: rest)).error = some .BadFormat ∧
      (read_metrics reg (version :: rest)).set.records = [] ∧
      (read_metrics reg (version :: rest)).set.size = 0 := by
  simp [read_metrics, Registry.resolve, h2, h6, metric_set.empty, metric_set.size]

/-- Witness for C2: version tag 4 in front of two well-formed version 2 records. -/
theorem read_metrics_unsupported_version_witness :
    (read_metrics sample_registry (4 :: 18 :: (sample_chunk ++ sample_chunk_cycle2))).error
      = some .BadFormat ∧
    (read_metrics sample_registry
      (4 :: 18 :: (sample_chunk ++ sample_chunk_cycle2))).set.records = [] ∧
    (read_metrics sample_registry
      (4 :: 18 :: (sample_chunk ++ sample_chunk_cycle2))).set.size = 0 :=
  read_metrics_unsupported_version sample_registry 4
    (18 :: (sample_chunk ++ sample_chunk_cycle2)) (by decide) (by decide)

/-- A record that is repeated right at the start of the payload ends the read with
`DuplicateKey` after one decoded record, for every registry and layout. -/
theorem read_metrics_repeated_record (reg : Registry) (version : Nat) (L : Layout)
    (hL : reg.resolve version = some L) (c extra : List Nat)
    (hc : c.length = L.record_size_bytes) (hpos : 0 < L.record_size_bytes) :
    read_metrics reg (version :: L.record_size_bytes :: (c ++ (c ++ extra)))
      = ⟨⟨version, max 0 (L.decode c).cycle, [L.decode c]⟩, some .DuplicateKey⟩ := by
  have hfuel : ∃ fuel, (c ++ (c ++ extra)).length = fuel + 2 :=
    ⟨(c ++ (c ++ extra)).length - 2, by simp only [List.length_append]; omega⟩
  obtain ⟨fuel, hfuel⟩ := hfuel
  have h1 : ¬ (c ++ (c ++ extra)).length = 0 := by omega
  have h2 : ¬ (c ++ (c ++ extra)).length < L.record_size_bytes := by
    simp only [List.length_append]; omega
  have h3 : ¬ (c ++ extra).length = 0 := by simp only [List.length_append]; omega
  have h4 : ¬ (c ++ extra).length < L.record_size_bytes := by
    simp only [List.length_append]; omega
  simp only [read_metrics, hL, ne_eq, not_true_eq_false, if_false, hfuel]
  rw [read_records, if_neg h1, if_neg h2, List.take_left' hc, List.drop_left' hc,
    append_of_fresh _ _ (by simp [metric_set.empty])]
  simp only []
  rw [read_records, if_neg h3, if_neg h4, List.take_left' hc,
    append_of_duplicate _ _ (by simp)]
  simp [metric_set.empty]

/-- C3 (amended): for a supported version with record width w, a stream made of the header
(version tag, w), k chunks of w bytes whose decoded keys (lane, tile, cycle) are pairwise
distinct, and j further bytes: with 1 ≤ j ≤ w - 1 the read fails with `IncompleteFile`, with
j = 0 it succeeds, and in both cases the set holds exactly the k decoded records, in stream
order. -/
theorem read_metrics_truncated (reg : Registry) (version : Nat) (L : Layout)
    (hL : reg.resolve version = some L) (chunks : List (List Nat)) (extra : List Nat)
    (hchunks : ∀ c ∈ chunks, c.length = L.record_size_bytes)
    (hkeys : (chunks.map (fun c => (L.decode c).key)).Nodup)
    (hextra : extra.length ≤ L.record_size_bytes - 1) (hpos : 0 < L.record_size_bytes) :
    (1 ≤ extra.length →
      (read_metrics reg (version :: L.record_size_bytes :: (chunks.flatten ++ extra))).error
        = some .IncompleteFile) ∧
    (extra.length = 0 →
      (read_metrics reg (version :: L.record_size_bytes :: (chunks.flatten ++ extra))).error
        = none) ∧
    (read_metrics reg (version :: L.record_size_bytes :: (chunks.flatten ++ extra))).set.records
      = chunks.map L.decode ∧
    (read_metrics reg (version :: L.record_size_bytes :: (chunks.flatten ++ extra))).set.size
      = chunks.length ∧
    (read_metrics reg (version :: L.record_size_bytes :: (chunks.flatten ++ extra))).set.version
      = version := by
  rw [read_metrics_chunks reg version L hL chunks extra hchunks hkeys (by omega)]
  refine ⟨?_, ?_, rfl, by simp [metric_set.size], rfl⟩
  · intro h1
    have : ¬ extra.length = 0 := by omega
    simp [this]
  · intro h0
    simp [h0]

/-- Witness for C3: two version 2 records with distinct keys followed by three more bytes, and
the same two records followed by nothing. -/
theorem read_metrics_truncated_witness :
    (read_metrics sample_registry
      (2 :: 18 :: ([sample_chunk, sample_chunk_cycle2].flatten ++ [7, 7, 7]))).error
        = some .IncompleteFile ∧
    (read_metrics sample_registry
      (2 :: 18 :: ([sample_chunk, sample_chunk_cycle2].flatten ++ [7, 7, 7]))).set.records
        = [⟨1, 1101, 1, 9, 8, 30⟩, ⟨1, 1101, 2, 9, 8, 30⟩] ∧
    (read_metrics sample_registry
      (2 :: 18 :: ([sample_chunk, sample_chunk_cycle2].flatten ++ []))).error = none :=
  ⟨(read_metrics_truncated sample_registry 2 (sample_layout 2) rfl
      [sample_chunk, sample_chunk_cycle2] [7, 7, 7] (by decide) (by decide) (by decide)
      (by decide)).1 (by decide),
   ((read_metrics_truncated sample_registry 2 (sample_layout 2) rfl
      [sample_chunk, sample_chunk_cycle2] [7, 7, 7] (by decide) (by decide) (by decide)
      (by decide)).2.2.1).trans (by decide),
   (read_metrics_truncated sample_registry 2 (sample_layout 2) rfl
      [sample_chunk, sample_chunk_cycle2] [] (by decide) (by decide) (by decide)
      (by decide)).2.1 rfl⟩

/-- C3 (counterexample): a version 2 stream made of a valid header, two full records that are
byte for byte the same, and one further byte.  The read fails with `DuplicateKey`, not with
`IncompleteFile`, and the set holds one record, not the two full records. -/
theorem read_metrics_duplicate_records :
    sample_registry.resolve 2 = some (sample_layout 2) ∧
    (sample_layout 2).record_size_bytes = 18 ∧
    sample_chunk.length = 18 ∧
    read_metrics sample_registry (2 :: 18 :: (sample_chunk ++ sample_chunk ++ [7]))
      = ⟨⟨2, 1, [⟨1, 1101, 1, 9, 8, 30⟩]⟩, some .DuplicateKey⟩ ∧
    (read_metrics sample_registry (2 :: 18 :: (sample_chunk ++ sample_chunk ++ [7]))).error
      ≠ some .IncompleteFile ∧
    (read_metrics sample_registry (2 :: 18 :: (sample_chunk ++ sample_chunk ++ [7]))).set.records
      ≠ [sample_chunk, sample_chunk].map (sample_layout 2).decode := by
  refine ⟨rfl, rfl, rfl, by decide, by decide, by decide⟩

end Codec
